import Mathlib

/-
Verification of the word-pouch stash layer.

The definitions below are a shallow embedding of the repository's stash
modules:
  * `src/src/stash/common.ts` — BaseStash / EntryStash / CommonEntryStash,
  * `src/unnamed/part_000`    — the older generic StashModule,
  * `src/unnamed/part_001`    — SentencesModule (fetch / new / delete).
Persistence-layer primitives (Dexie tables) and the small utility functions
(`src/util`, `src/api/db`), which are not part of the provided sources, are
modelled from the specification's description of the collaborator interface
(spec sections 4 and 6); each such definition carries a doc comment saying so.

JavaScript records keyed by numeric ids are modelled as association lists
`List (Nat × K)`; Dexie tables as `List` of rows; `async` functions that can
reject are modelled with an explicit result type `JsResult` that carries the
module state at the moment of normal or exceptional return, so that partial
mutation before a throw is observable in the model.
-/

set_option maxRecDepth 4096

namespace WordPouch

/-- Result of a fallible stateful operation: either a normal return carrying a
value and the resulting state, or a raised error carrying the message and the
state as it was at the moment of the throw. -/
inductive JsResult (α σ : Type) where
  | ok (a : α) (s : σ)
  | err (msg : String) (s : σ)

/-- The state in which the operation finished, whether it returned or threw. -/
def JsResult.state {α σ : Type} : JsResult α σ → σ
  | .ok _ s => s
  | .err _ s => s

/-- True when the operation raised an error. -/
def JsResult.isErr {α σ : Type} : JsResult α σ → Bool
  | .ok _ _ => false
  | .err _ _ => true

/-- JS truthiness of a Promise object: every object is truthy, so a guard
testing the negation of an (un-awaited) Promise never fires. -/
def promiseTruthy : Bool := true

/-- Modelled from the spec: the `Journal` entity class (src/api/db, not under
src/; an older revision appears in src/unnamed/part_002) — only its numeric
id matters to the stash layer. -/
structure Journal where
  id : Nat
deriving DecidableEq, Repr

/-- A generic persisted entry for the EntryStash embedding: a numeric id plus
a field map (JS object fields), modelled as an association list from field
name to value. -/
structure GEntry where
  id : Nat
  fields : List (String × Int)
deriving DecidableEq, Repr

/-- Read a field of an entry (`entry[key]`); `none` models `undefined`. -/
def getField (e : GEntry) (key : String) : Option Int :=
  (e.fields.find? (fun kv => kv.1 == key)).map (fun kv => kv.2)

/-- Write a field of an entry (`entry[key] = v`). -/
def setField (e : GEntry) (key : String) (v : Int) : GEntry :=
  if (e.fields.find? (fun kv => kv.1 == key)).isSome then
    { e with fields := e.fields.map (fun kv => if kv.1 == key then (kv.1, v) else kv) }
  else
    { e with fields := e.fields ++ [(key, v)] }

/-- Lookup in a `Record<number, K>` state mapping (`this.state.all[id]`). -/
def lookupEntry {K : Type} (all : List (Nat × K)) (id : Nat) : Option K :=
  (all.find? (fun kv => kv.1 == id)).map (fun kv => kv.2)

/-- Write one field of the mapped entry with the given id
(`stateEntry[key] = value` for the entry stored in the mapping). -/
def setEntryField (all : List (Nat × GEntry)) (id : Nat) (key : String) (v : Int) :
    List (Nat × GEntry) :=
  all.map (fun kv => if kv.1 == id then (kv.1, setField kv.2 key v) else kv)

/-- The observable state of an EntryStash / StashModule: the loaded in-memory
mapping `state.all` together with the backing persistent table. -/
structure EntryStashState where
  all : List (Nat × GEntry)
  table : List GEntry
deriving DecidableEq, Repr

/-- The `payload` argument of `EntryStash.updateStateAndDb`
(src/src/stash/common.ts:215): either a literal value or a deriver function
receiving the currently loaded entry. -/
inductive Payload where
  | value (v : Int)
  | deriver (f : GEntry → Int)

/-- `const getValue = payload instanceof Function ? payload : () => payload`
(src/src/stash/common.ts:222). -/
def Payload.getValue : Payload → GEntry → Int
  | .value v, _ => v
  | .deriver f, e => f e

/-- The mutator passed to `table.where({ id }).modify(...)` in
`EntryStash.updateStateAndDb` (src/src/stash/common.ts:224-237): look the
row's id up in the loaded mapping; if absent, return without touching the
row; if the derived value equals the row's current value, return without
touching the row (logged, not an error); otherwise set both the row's field
and the loaded entry's field.  Returns the updated row, the updated mapping,
and whether the row was changed. -/
def modifyCallback (all : List (Nat × GEntry)) (key : String) (getValue : GEntry → Int)
    (dbEntry : GEntry) : GEntry × List (Nat × GEntry) × Bool :=
  match lookupEntry all dbEntry.id with
  | none => (dbEntry, all, false)
  | some stateEntry =>
    let value := getValue stateEntry
    if getField dbEntry key = some value then
      (dbEntry, all, false)
    else
      (setField dbEntry key value, setEntryField all dbEntry.id key value, true)

/-- Persistence-layer primitive, modelled from the spec (section 6):
`where({ id }).modify(mutator)` applies the mutator to each row matching the
id, in place, and resolves with the modified-rows count (spec section 4.2:
1 updated, 0 skipped / no row).  The mapping is threaded through because the
mutator above also writes the loaded entry. -/
def runModify (id : Nat) (key : String) (getValue : GEntry → Int) :
    List GEntry → List (Nat × GEntry) → List GEntry × List (Nat × GEntry) × Nat
  | [], all => ([], all, 0)
  | row :: rest, all =>
    if row.id == id then
      let r := modifyCallback all key getValue row
      let t := runModify id key getValue rest r.2.1
      (r.1 :: t.1, t.2.1, (if r.2.2 then 1 else 0) + t.2.2)
    else
      let t := runModify id key getValue rest all
      (row :: t.1, t.2.1, t.2.2)

/-- Embeds `EntryStash.updateStateAndDb` (src/src/stash/common.ts:215-238):
run the modify mutator over the rows matching `id`, returning the new state
and the count. -/
def updateStateAndDb (s : EntryStashState) (id : Nat) (key : String) (payload : Payload) :
    EntryStashState × Nat :=
  let r := runModify id key payload.getValue s.table s.all
  ({ all := r.2.1, table := r.1 }, r.2.2)

/-- The error message thrown by `EntryStash.addToAll`
(src/src/stash/common.ts:143). -/
def addErrMsg (id : Nat) : String :=
  "add: Entry " ++ toString id ++ " already exists."

/-- Embeds `EntryStash.addToAll` (src/src/stash/common.ts:142-146): throw if
an entry with the same id is already present in the loaded mapping (entries
are objects, hence truthy), otherwise insert it into the mapping. -/
def addToAll (s : EntryStashState) (e : GEntry) : JsResult Unit EntryStashState :=
  match lookupEntry s.all e.id with
  | some _ => .err (addErrMsg e.id) s
  | none => .ok () { s with all := s.all ++ [(e.id, e)] }

/-- Persistence-layer primitive, modelled from the spec (section 6):
`update(id, partialFields)` applies the partial fields to the row with the
given primary key and resolves with the affected-rows count (1 when a row
matched, 0 otherwise). -/
def tableUpdate (table : List GEntry) (id : Nat) (key : String) (v : Int) :
    List GEntry × Nat :=
  if (table.find? (fun r => r.id == id)).isSome then
    (table.map (fun r => if r.id == id then setField r key v else r), 1)
  else
    (table, 0)

/-- Embeds the older `StashModule.updateStateAndDb` (src/unnamed/part_000:178-199):
return 0 when the entry is not loaded; return 0 when the loaded entry already
has the value; otherwise FIRST write the value into the loaded entry
(`entry[key] = value`), THEN call `table.update`; when the db update affects
no row the error is logged and 0 returned — with the state already mutated.
The returned value is `some 0` on every 0-path and `none` (undefined) on the
successful path, mirroring the `Promise<void | 0>` result. -/
def stashModuleUpdateStateAndDb (s : EntryStashState) (id : Nat) (key : String) (value : Int) :
    EntryStashState × Option Nat :=
  match lookupEntry s.all id with
  | none => (s, some 0)
  | some entry =>
    if getField entry key = some value then
      (s, some 0)
    else
      let all1 := setEntryField s.all id key value
      let r := tableUpdate s.table id key value
      if r.2 = 0 then ({ all := all1, table := r.1 }, some 0)
      else ({ all := all1, table := r.1 }, none)

/-- Modelled from the spec: `UpdateMode` (src/util, not under src/) — the
selection update mode is one of Replace, Add, Remove (spec section 4.3). -/
inductive UpdateMode where
  | Replace
  | Add
  | Remove
deriving DecidableEq, Repr

/-- Modelled from the spec: the deduplication applied to the input in Replace
mode (src/util `updateArrayWithValues`, not under src/) — keeps the first
occurrence of each id, preserving order. -/
def dedupKeepFirstAux : List Nat → List Nat → List Nat
  | [], _ => []
  | a :: rest, seen =>
    if a ∈ seen then dedupKeepFirstAux rest seen
    else a :: dedupKeepFirstAux rest (a :: seen)

/-- Modelled from the spec: the "(deduplicated) input" used by the Replace
mode (spec section 4.3) — duplicates dropped, first occurrences kept. -/
def dedupKeepFirst (l : List Nat) : List Nat := dedupKeepFirstAux l []

/-- Modelled from the spec: the Add mode of `updateArrayWithValues` (src/util,
not under src/) — "unions while preserving existing order and appending only
ids not already present" (spec section 4.3). -/
def addUnion : List Nat → List Nat → List Nat
  | current, [] => current
  | current, a :: rest =>
    addUnion (if a ∈ current then current else current ++ [a]) rest

/-- Modelled from the spec: `updateArrayWithValues` (src/util, not under
src/) — Replace discards the old list and uses the deduplicated input; Add
unions preserving existing order, appending only ids not already present;
Remove filters out the given ids (spec section 4.3). -/
def updateArrayWithValues (current ids : List Nat) : UpdateMode → List Nat
  | .Replace => dedupKeepFirst ids
  | .Add => addUnion current ids
  | .Remove => current.filter (fun a => !(ids.contains a))

/-- Modelled from the spec: `areArraysEqual` (src/util, not under src/) —
set-equal and order-equal, i.e. plain list equality (spec section 4.3). -/
def areArraysEqual (a b : List Nat) : Bool := a == b

/-- Modelled from the spec: `intersectArrays` (src/util, not under src/) —
the elements of the first list that also occur in the second, in the first
list's order (used to re-derive the selection after a re-fetch, spec
section 4.4). -/
def intersectArrays (a b : List Nat) : List Nat :=
  a.filter (fun x => b.contains x)

/-- The observable state of a CommonEntryStash module over entries of type
`K`: the loaded mapping, the selection list (`CommonEntryStashState`,
src/src/stash/common.ts:253-255), and the active journal resolved via the
root context (`this.$stash.journals.active`, src/src/stash/common.ts:267-269),
flattened into the same record. -/
structure CommonStashState (K : Type) where
  all : List (Nat × K)
  selectedIds : List Nat
  activeJournal : Option Journal
deriving DecidableEq, Repr

/-- Embeds `CommonEntryStash.isValid` (src/src/stash/common.ts:299-305):
throws when no journal is active; otherwise true iff the id is loaded and the
entry's journalId equals the active journal's id.  `journalIdOf` plays the
role of the `journalId` property of the entry class `K`. -/
def isValid {K : Type} (journalIdOf : K → Nat) (s : CommonStashState K) (id : Nat) :
    Except String Bool :=
  match s.activeJournal with
  | none => .error "isValid: Active journal is not set."
  | some j =>
    match lookupEntry s.all id with
    | none => .ok false
    | some e => .ok (journalIdOf e == j.id)

/-- The error message thrown by `CommonEntryStash.setSelectedIds` for an
invalid entry id (src/src/stash/common.ts:327). -/
def notValidMsg (id : Nat) : String :=
  "setSelectedIds: Entry " ++ toString id ++ " is not valid."

/-- The validation loop of `CommonEntryStash.setSelectedIds`
(src/src/stash/common.ts:325-328): walk the input ids and throw at the first
one that fails `isValid` (also propagating the active-journal error that
`isValid` itself can throw). -/
def validateIds {K : Type} (journalIdOf : K → Nat) (s : CommonStashState K) :
    List Nat → Except String Unit
  | [] => .ok ()
  | id :: rest =>
    match isValid journalIdOf s id with
    | .error e => .error e
    | .ok true => validateIds journalIdOf s rest
    | .ok false => .error (notValidMsg id)

/-- Embeds `CommonEntryStash.setSelectedIds` (src/src/stash/common.ts:322-334):
validate every input id (throwing atomically before any mutation), compute
the new selection with `updateArrayWithValues`, return the sentinel `some 0`
without mutating when the computed list equals the current one, otherwise
replace the selection list.  `none` models the `undefined` result of the
mutating path.  The input is the already `wrapInArray`-normalised id list. -/
def setSelectedIds {K : Type} (journalIdOf : K → Nat) (s : CommonStashState K)
    (entryIdList : List Nat) (updateMode : UpdateMode) :
    JsResult (Option Nat) (CommonStashState K) :=
  match validateIds journalIdOf s entryIdList with
  | .error e => .err e s
  | .ok _ =>
    let newSelectedEntryIds := updateArrayWithValues s.selectedIds entryIdList updateMode
    if areArraysEqual s.selectedIds newSelectedEntryIds then .ok (some 0) s
    else .ok none { s with selectedIds := newSelectedEntryIds }

/-- Modelled from the spec: the `Sentence` entity class (src/api/db, not
under src/) is a CommonEntry — a persisted entity with a numeric id, its
text, and the `journalId` foreign reference set at construction
(`new Sentence(text, activeJournalId)`, src/unnamed/part_001:58). -/
structure Sentence where
  id : Nat
  text : String
  journalId : Nat
deriving DecidableEq, Repr

/-- Modelled from the spec: a row of the `sentencesInResources` relationship
table (src/api/db, not under src/) — the junction table linking Sentences to
Resources (spec section 4.4, "relationship/junction tables"). -/
structure SentenceResourceLink where
  sentenceId : Nat
  resourceId : Nat
deriving DecidableEq, Repr

/-- The portion of the application state that `SentencesModule`
(src/unnamed/part_001) reads or writes: the active journal, the resources
module's selection list (reached through the root context), the sentences
module's loaded mapping and selection list, the persisted `sentences` and
`sentencesInResources` tables, and the table's auto-increment counter. -/
structure AppState where
  activeJournal : Option Journal
  resourcesSelectedIds : List Nat
  sentencesAll : List (Nat × Sentence)
  sentencesSelectedIds : List Nat
  sentencesTable : List Sentence
  sentencesInResources : List SentenceResourceLink
  nextId : Nat
deriving DecidableEq, Repr

/-- The sentences module viewed as a CommonEntryStash state. -/
def sentencesCommon (s : AppState) : CommonStashState Sentence :=
  { all := s.sentencesAll
    selectedIds := s.sentencesSelectedIds
    activeJournal := s.activeJournal }

/-- Write a CommonEntryStash state back into the application state. -/
def writeSentencesCommon (s : AppState) (c : CommonStashState Sentence) : AppState :=
  { s with sentencesAll := c.all, sentencesSelectedIds := c.selectedIds }

/-- Modelled from the spec: `getResourceSentenceIds` (src/api/db, not under
src/) — resolves the ids of the Sentences linked to the given Resource via
the relationship table (spec section 4.4, fetch-by-parent). -/
def getResourceSentenceIds (links : List SentenceResourceLink) (resourceId : Nat) : List Nat :=
  (links.filter (fun l => l.resourceId == resourceId)).map (fun l => l.sentenceId)

/-- Persistence-layer primitive (spec section 6): `get(id)` on the sentences
table. -/
def tableGetSentence (table : List Sentence) (id : Nat) : Option Sentence :=
  table.find? (fun r => r.id == id)

/-- Persistence-layer primitive (spec section 6): `bulkGet(ids)` resolves
with one slot per requested id, missing rows surfaced as not-found markers. -/
def bulkGetSentences (table : List Sentence) (ids : List Nat) : List (Option Sentence) :=
  ids.map (tableGetSentence table)

/-- Modelled from the spec: `reduceArrayToObject` (src/util, not under
src/) — folds the fetched entries into an id-keyed mapping (spec
section 4.4, "replace the module's entire loaded mapping with the result");
not-found markers are skipped. -/
def reduceArrayToObject (entries : List (Option Sentence)) : List (Nat × Sentence) :=
  entries.filterMap (fun o => o.map (fun e => (e.id, e)))

/-- Persistence-layer primitive (spec section 6): `bulkDelete(ids)` on the
sentences table. -/
def bulkDeleteSentences (table : List Sentence) (ids : List Nat) : List Sentence :=
  table.filter (fun r => !(ids.contains r.id))

/-- Persistence-layer primitive (spec section 6):
`where('sentenceId').anyOf(ids).delete()` on the relationship table. -/
def deleteLinksBySentenceIds (links : List SentenceResourceLink) (ids : List Nat) :
    List SentenceResourceLink :=
  links.filter (fun l => !(ids.contains l.sentenceId))

/-- Embeds `SentencesModule.fetchResourceSentences` (src/unnamed/part_001:26-40):
throw when no journal is active; `this.$stash.resources.selectedIds.shift()`
destructively removes and returns the first selected resource id (on an
empty list it returns undefined and leaves the list empty); a falsy shifted
id (undefined, or the number 0) returns early; otherwise resolve the child
ids, bulk-load them, replace the whole loaded mapping, and re-select the
intersection of the previous selection with the loaded ids.  The inner
`setSelectedIds` call is not awaited, so a rejection there is an unhandled
one and the selection is simply left unchanged. -/
def fetchResourceSentences (s : AppState) : JsResult Unit AppState :=
  match s.activeJournal with
  | none => .err "sentences/fetchResourceSentences: Active journal is not set." s
  | some _ =>
    match s.resourcesSelectedIds with
    | [] => .ok () s
    | selectedResourceId :: rest =>
      let s1 := { s with resourcesSelectedIds := rest }
      if selectedResourceId == 0 then .ok () s1
      else
        let sentenceIds := getResourceSentenceIds s1.sentencesInResources selectedResourceId
        let sentences := bulkGetSentences s1.sentencesTable sentenceIds
        let s2 := { s1 with sentencesAll := reduceArrayToObject sentences }
        match setSelectedIds Sentence.journalId (sentencesCommon s2)
            (intersectArrays s2.sentencesSelectedIds (s2.sentencesAll.map (fun kv => kv.1)))
            UpdateMode.Replace with
        | .ok _ c => .ok () (writeSentencesCommon s2 c)
        | .err _ _ => .ok () s2

/-- The `bulkAdd(..., { allKeys: true })` primitive specialised to the
sentences table (spec section 6): the store assigns consecutive fresh primary
keys to the added rows and resolves with the list of assigned ids. -/
def bulkAddAux : Nat → List Sentence → List Sentence × List Nat
  | _, [] => ([], [])
  | n, p :: rest =>
    let r := bulkAddAux (n + 1) rest
    ({ p with id := n } :: r.1, n :: r.2)

/-- The error message thrown by `SentencesModule.new` when no journal is
active (src/unnamed/part_001:52). -/
def newErrMsg : String := "sentences/new: Active journal is not set."

/-- Embeds `SentencesModule.new` (src/unnamed/part_001:50-67): read the
active journal's id and throw on a JS-falsy value (no journal, or id 0);
inside one transaction bulk-add one Sentence per text, each constructed with
`journalId` equal to the active journal's id, read the created rows back,
and throw (rolling the transaction back to the original state) when the
count read back differs from the requested count; otherwise return the
assigned ids. -/
def sentencesNew (s : AppState) (texts : List String) : JsResult (List Nat) AppState :=
  match s.activeJournal with
  | none => .err newErrMsg s
  | some j =>
    if j.id == 0 then .err newErrMsg s
    else
      let protos := texts.map (fun text => ({ id := 0, text := text, journalId := j.id } : Sentence))
      let r := bulkAddAux s.nextId protos
      let s1 := { s with
        sentencesTable := s.sentencesTable ++ r.1
        nextId := s.nextId + protos.length }
      let newSentences := bulkGetSentences s1.sentencesTable r.2
      if newSentences.length != texts.length then
        .err "sentences/new: Cannot create new Sentences." s
      else .ok r.2 s1

/-- Embeds `SentencesModule.delete` (src/unnamed/part_001:76-99): the guard
`if (!this.isValidInDb(sentenceId)) throw ...` tests the truthiness of the
Promise returned by the (un-awaited) async `isValidInDb`; a Promise object is
always truthy, so the guard never throws and the flow always proceeds to the
transaction, which deletes the rows and the relationship rows; afterwards the
deleted ids are removed from the selection (this `setSelectedIds` call IS
awaited, so its rejection aborts `delete` — after the transaction already
committed), and finally the children of the now-current parent are
re-fetched. -/
def sentencesDelete (s : AppState) (sentenceIdList : List Nat) : JsResult Unit AppState :=
  if sentenceIdList.any (fun _ => !promiseTruthy) then
    .err "sentences/delete: unreachable validity guard" s
  else
    let s1 := { s with
      sentencesTable := bulkDeleteSentences s.sentencesTable sentenceIdList
      sentencesInResources := deleteLinksBySentenceIds s.sentencesInResources sentenceIdList }
    match setSelectedIds Sentence.journalId (sentencesCommon s1) sentenceIdList UpdateMode.Remove with
    | .err e c => .err e (writeSentencesCommon s1 c)
    | .ok _ c => fetchResourceSentences (writeSentencesCommon s1 c)

/-- Modelled from the spec: `isValidDBCommonEntry` (src/api/db, not under
src/) — true iff a row with the given id exists in the table and its
journalId equals the given journal id (spec sections 4.2 and 4.3), here
specialised to the sentences table. -/
def isValidDBCommonEntry (table : List Sentence) (id journalId : Nat) : Bool :=
  (table.filter (fun r => r.id == id && r.journalId == journalId)).length == 1

/-! Helper lemmas about the modify primitive. -/

/-- When the id is not loaded, every matching row is skipped by the modify
mutator: the table, the mapping and the count come back unchanged. -/
theorem runModify_not_loaded (id : Nat) (key : String) (gv : GEntry → Int)
    (table : List GEntry) (all : List (Nat × GEntry)) (h : lookupEntry all id = none) :
    runModify id key gv table all = (table, all, 0) := by
  induction table with
  | nil => rfl
  | cons row rest ih =>
    by_cases hb : (row.id == id) = true
    · have hid : row.id = id := by simpa using hb
      simp [runModify, hb, modifyCallback, hid, h, ih]
    · simp [runModify, hb, ih]

/-- When every matching row already holds the derived value, the modify
mutator changes nothing and the count is 0. -/
theorem runModify_unchanged (id : Nat) (key : String) (gv : GEntry → Int) (v : Int)
    (hg : ∀ e, gv e = v) (table : List GEntry) (all : List (Nat × GEntry))
    (h : ∀ row ∈ table, row.id = id → getField row key = some v) :
    runModify id key gv table all = (table, all, 0) := by
  induction table with
  | nil => rfl
  | cons row rest ih =>
    have htail : ∀ r ∈ rest, r.id = id → getField r key = some v :=
      fun r hr => h r (List.mem_cons_of_mem _ hr)
    by_cases hb : (row.id == id) = true
    · have hid : row.id = id := by simpa using hb
      have hrow : getField row key = some v := h row (List.mem_cons_self _ _) hid
      cases hl : lookupEntry all row.id with
      | none => simp [runModify, hb, modifyCallback, hl, ih htail]
      | some st => simp [runModify, hb, modifyCallback, hl, hg, hrow, ih htail]
    · simp [runModify, hb, ih htail]

/-- Claim C1 (counterexample): with the row `{id 1, text 5}` persisted and
nothing loaded, `updateStateAndDb(1, text, 7)` leaves the persisted row's
field at 5 — it is NOT set to the payload value 7, contradicting the claim
that the update still applies to the persisted row when the loaded copy is
absent. -/
theorem C1_counterexample :
    ((updateStateAndDb { all := [], table := [{ id := 1, fields := [("text", 5)] }] }
        1 "text" (Payload.value 7)).1.table.map (fun r => getField r "text") = [some 5])
    ∧ ¬ ((updateStateAndDb { all := [], table := [{ id := 1, fields := [("text", 5)] }] }
        1 "text" (Payload.value 7)).1.table.map (fun r => getField r "text") = [some 7]) := by
  exact ⟨rfl, by decide⟩

/-- Claim C1 (amended): when the loaded-state copy of the entity is absent,
`EntryStash.updateStateAndDb` leaves the persisted row unchanged as well —
the modify mutator returns without writing, so the whole call is a no-op
returning 0 and both the table and the state mapping are untouched. -/
theorem C1_update_not_loaded_noop (s : EntryStashState) (id : Nat) (key : String)
    (payload : Payload) (h : lookupEntry s.all id = none) :
    updateStateAndDb s id key payload = (s, 0) := by
  simp [updateStateAndDb, runModify_not_loaded id key payload.getValue s.table s.all h]

/-- Claim C1 (witness): a concrete run of the amended statement — id 3 is not
loaded, and the call returns the state unchanged with count 0. -/
theorem C1_witness :
    lookupEntry (EntryStashState.mk [] [{ id := 3, fields := [("text", 5)] }]).all 3 = none
    ∧ updateStateAndDb { all := [], table := [{ id := 3, fields := [("text", 5)] }] }
        3 "text" (Payload.value 9)
      = ({ all := [], table := [{ id := 3, fields := [("text", 5)] }] }, 0) :=
  ⟨rfl, C1_update_not_loaded_noop _ 3 "text" (Payload.value 9) rfl⟩

/-- Claim C3 (code bug): the older `StashModule.updateStateAndDb`
(src/unnamed/part_000:178-199) writes the new value into the loaded entry
BEFORE calling `table.update`.  On the concrete input below the db has no
matching row, so the table write never succeeds (the update count is 0 and
the error is logged), yet the loaded entry's field has already been changed —
the in-memory mapping is mutated before (and here, without) a successful
persistence write, contradicting the claim. -/
theorem C3_code_bug_eval :
    stashModuleUpdateStateAndDb
        { all := [(1, { id := 1, fields := [("text", 0)] })], table := [] } 1 "text" 5
      = ({ all := [(1, { id := 1, fields := [("text", 5)] })], table := [] }, some 0)
    ∧ ¬ ((stashModuleUpdateStateAndDb
        { all := [(1, { id := 1, fields := [("text", 0)] })], table := [] } 1 "text" 5).1.all
      = [(1, { id := 1, fields := [("text", 0)] })]) := by
  exact ⟨rfl, by decide⟩

/-- The first-found entry of an association list extended on the right with a
fresh key is that new binding. -/
theorem lookupEntry_append_single {K : Type} (all : List (Nat × K)) (k : Nat) (v : K)
    (h : lookupEntry all k = none) : lookupEntry (all ++ [(k, v)]) k = some v := by
  induction all with
  | nil => simp [lookupEntry]
  | cons hd tl ih =>
    by_cases hb : (hd.1 == k) = true
    · simp [lookupEntry, List.find?, hb] at h
    · have h2 : lookupEntry tl k = none := by
        simpa [lookupEntry, List.find?, hb] using h
      simpa [lookupEntry, List.find?, hb] using ih h2

/-- Claim C5: once an entity has been inserted by `addToAll`, a second
`addToAll` with the same id raises the duplicate-entry error and leaves the
mapping exactly as it was after the first insert. -/
theorem C5_addToAll_unique (s s' : EntryStashState) (e f : GEntry) (a : Unit)
    (hid : f.id = e.id) (h : addToAll s e = .ok a s') :
    addToAll s' f = .err (addErrMsg f.id) s' := by
  cases hl : lookupEntry s.all e.id with
  | some g => simp [addToAll, hl] at h
  | none =>
    simp only [addToAll, hl] at h
    cases h
    simp [addToAll, hid, lookupEntry_append_single s.all e.id e hl]

/-- Claim C5 (witness): inserting entry 4 into the empty stash and inserting
it again — the second call fails with the duplicate error and the mapping
still holds exactly the first insert. -/
theorem C5_witness :
    addToAll { all := [(4, { id := 4, fields := [] })], table := [] }
        { id := 4, fields := [] }
      = .err (addErrMsg 4)
        { all := [(4, { id := 4, fields := [] })], table := [] } :=
  C5_addToAll_unique { all := [], table := [] } _ { id := 4, fields := [] }
    { id := 4, fields := [] } () rfl rfl

/-- Claim C6: when every persisted row matching the id already carries the
payload value in the given field (including the case of no matching row at
all), `EntryStash.updateStateAndDb` returns 0 and performs no write: the
table and the loaded mapping are exactly unchanged, and no error is raised —
the embedding is a total function, mirroring that the source never throws
for a missing row or an unchanged value. -/
theorem C6_update_noop (s : EntryStashState) (id : Nat) (key : String) (v : Int)
    (h : ∀ row ∈ s.table, row.id = id → getField row key = some v) :
    updateStateAndDb s id key (Payload.value v) = (s, 0) := by
  simp [updateStateAndDb,
    runModify_unchanged id key (Payload.value v).getValue v (fun e => rfl) s.table s.all h]

/-- Claim C6 (witness): entry 2 is loaded and its persisted row already has
value 3 in field text; the call returns 0 and changes nothing. -/
theorem C6_witness :
    updateStateAndDb
        { all := [(2, { id := 2, fields := [("text", 3)] })],
          table := [{ id := 2, fields := [("text", 3)] }] }
        2 "text" (Payload.value 3)
      = ({ all := [(2, { id := 2, fields := [("text", 3)] })],
           table := [{ id := 2, fields := [("text", 3)] }] }, 0) :=
  C6_update_noop _ 2 "text" 3 (by decide)

/-! Helper lemmas about selection validation and `updateArrayWithValues`. -/

/-- If some id of the list fails `isValid`, the validation loop raises an
error. -/
theorem validateIds_err_of_invalid {K : Type} (jid : K → Nat) (s : CommonStashState K)
    (ids : List Nat) (x : Nat) (hmem : x ∈ ids) (hinv : isValid jid s x = .ok false) :
    ∃ e, validateIds jid s ids = .error e := by
  induction ids with
  | nil => cases hmem
  | cons a rest ih =>
    rcases List.mem_cons.mp hmem with hx | hx
    · subst hx
      exact ⟨notValidMsg x, by simp [validateIds, hinv]⟩
    · cases hva : isValid jid s a with
      | error e => exact ⟨e, by simp [validateIds, hva]⟩
      | ok b =>
        cases b with
        | false => exact ⟨notValidMsg a, by simp [validateIds, hva]⟩
        | true =>
          obtain ⟨e, he⟩ := ih hx
          exact ⟨e, by simp [validateIds, hva, he]⟩

/-- Claim C4: `setSelectedIds` fails atomically — whenever any single id of
the input fails `isValid`, the call raises an error and the module state
(mapping, selection list and journal alike) is exactly the state before the
call, whatever the mode and the other ids. -/
theorem C4_setSelectedIds_atomic {K : Type} (jid : K → Nat) (s : CommonStashState K)
    (ids : List Nat) (mode : UpdateMode) (x : Nat) (hmem : x ∈ ids)
    (hinv : isValid jid s x = .ok false) :
    (setSelectedIds jid s ids mode).isErr = true
    ∧ (setSelectedIds jid s ids mode).state = s := by
  obtain ⟨e, he⟩ := validateIds_err_of_invalid jid s ids x hmem hinv
  simp [setSelectedIds, he, JsResult.isErr, JsResult.state]

/-- Claim C4 (witness): the batch [1, 99] where id 1 is valid but id 99 is
not loaded — the whole call errs and the selection state is untouched. -/
theorem C4_witness :
    (setSelectedIds Sentence.journalId
        { all := [(1, { id := 1, text := "a", journalId := 1 })], selectedIds := [],
          activeJournal := some { id := 1 } } [1, 99] UpdateMode.Replace).isErr = true
    ∧ (setSelectedIds Sentence.journalId
        { all := [(1, { id := 1, text := "a", journalId := 1 })], selectedIds := [],
          activeJournal := some { id := 1 } } [1, 99] UpdateMode.Replace).state
      = { all := [(1, { id := 1, text := "a", journalId := 1 })], selectedIds := [],
          activeJournal := some { id := 1 } } :=
  C4_setSelectedIds_atomic Sentence.journalId _ [1, 99] UpdateMode.Replace 99
    (by decide) rfl

/-- Membership in the current list survives `addUnion`. -/
theorem addUnion_mem_left (x : Nat) (ids : List Nat) :
    ∀ current : List Nat, x ∈ current → x ∈ addUnion current ids := by
  induction ids with
  | nil => intro current h; simpa [addUnion] using h
  | cons a rest ih =>
    intro current h
    have hx : x ∈ (if a ∈ current then current else current ++ [a]) := by
      split
      · exact h
      · exact List.mem_append_left _ h
    simpa [addUnion] using ih _ hx

/-- Every id of the input ends up in the result of `addUnion`. -/
theorem addUnion_mem_right (x : Nat) (ids : List Nat) :
    ∀ current : List Nat, x ∈ ids → x ∈ addUnion current ids := by
  induction ids with
  | nil => intro current h; cases h
  | cons a rest ih =>
    intro current h
    rcases List.mem_cons.mp h with hx | hx
    · subst hx
      have hx2 : x ∈ (if x ∈ current then current else current ++ [x]) := by
        split
        · assumption
        · exact List.mem_append_right _ (List.mem_singleton.mpr rfl)
      simpa [addUnion] using addUnion_mem_left x rest _ hx2
    · simpa [addUnion] using ih _ hx

/-- `addUnion` is the identity when every input id is already present. -/
theorem addUnion_eq_of_subset (ids : List Nat) :
    ∀ current : List Nat, (∀ a ∈ ids, a ∈ current) → addUnion current ids = current := by
  induction ids with
  | nil => intro current _; rfl
  | cons a rest ih =>
    intro current h
    have ha : a ∈ current := h a (List.mem_cons_self _ _)
    have : addUnion current (a :: rest) = addUnion current rest := by
      simp [addUnion, ha]
    rw [this]
    exact ih current (fun b hb => h b (List.mem_cons_of_mem _ hb))

/-- Filtering twice with the same predicate filters once. -/
theorem filter_same_idem {α : Type} (p : α → Bool) (l : List α) :
    (l.filter p).filter p = l.filter p := by
  induction l with
  | nil => rfl
  | cons a t ih => cases hp : p a <;> simp [List.filter_cons, hp, ih]

/-- Applying the same selection update twice is the same as applying it
once, for every mode. -/
theorem updateArrayWithValues_idem (sel ids : List Nat) (mode : UpdateMode) :
    updateArrayWithValues (updateArrayWithValues sel ids mode) ids mode
      = updateArrayWithValues sel ids mode := by
  cases mode with
  | Replace => rfl
  | Add =>
    exact addUnion_eq_of_subset ids _ (fun a ha => addUnion_mem_right a ids sel ha)
  | Remove => exact filter_same_idem (fun a => !(ids.contains a)) sel

/-- Validation only reads the mapping and the journal, so replacing the
selection list does not change its outcome. -/
theorem validateIds_selEq {K : Type} (jid : K → Nat) (s : CommonStashState K)
    (x : List Nat) (ids : List Nat) :
    validateIds jid { s with selectedIds := x } ids = validateIds jid s ids := by
  induction ids with
  | nil => rfl
  | cons a t ih =>
    have hv : isValid jid { s with selectedIds := x } a = isValid jid s a := rfl
    cases hva : isValid jid s a with
    | error e => simp [validateIds, hv, hva]
    | ok b => cases b <;> simp [validateIds, hv, hva, ih]

/-- Claim C7: `setSelectedIds` is idempotent — whenever a call succeeds
(whether or not it changed the list), repeating it with the same ids and
mode returns the sentinel `some 0` ("unchanged") and leaves the state
exactly as the first call left it. -/
theorem C7_setSelectedIds_idem {K : Type} (jid : K → Nat) (s : CommonStashState K)
    (ids : List Nat) (mode : UpdateMode) (r : Option Nat) (s' : CommonStashState K)
    (h : setSelectedIds jid s ids mode = .ok r s') :
    setSelectedIds jid s' ids mode = .ok (some 0) s' := by
  cases hval : validateIds jid s ids with
  | error e => simp [setSelectedIds, hval] at h
  | ok u =>
    simp only [setSelectedIds, hval] at h
    by_cases heq :
        areArraysEqual s.selectedIds (updateArrayWithValues s.selectedIds ids mode) = true
    · rw [if_pos heq] at h
      cases h
      simp [setSelectedIds, hval, heq]
    · rw [if_neg heq] at h
      cases h
      have hval2 :
          validateIds jid
              { s with selectedIds := updateArrayWithValues s.selectedIds ids mode } ids
            = Except.ok () := by
        rw [validateIds_selEq]
        exact hval
      have hidem := updateArrayWithValues_idem s.selectedIds ids mode
      simp [setSelectedIds, hval2, areArraysEqual, hidem]

/-- Claim C7 (witness): selecting [1] by Replace from the empty selection
changes the list to [1]; repeating the exact call reports `some 0` and
leaves the state as it was. -/
theorem C7_witness :
    setSelectedIds Sentence.journalId
        { all := [(1, { id := 1, text := "a", journalId := 1 })], selectedIds := [1],
          activeJournal := some { id := 1 } } [1] UpdateMode.Replace
      = .ok (some 0)
        { all := [(1, { id := 1, text := "a", journalId := 1 })], selectedIds := [1],
          activeJournal := some { id := 1 } } :=
  C7_setSelectedIds_idem Sentence.journalId
    { all := [(1, { id := 1, text := "a", journalId := 1 })], selectedIds := [],
      activeJournal := some { id := 1 } } [1] UpdateMode.Replace none _ rfl

/-! Claims about the concrete Sentences module. -/

/-- Claim C2 (code bug): on the concrete input — active journal 1, persisted
sentence 9 belonging to journal 2 (so not valid in the active journal, as the
first conjunct checks), one relationship row for it, nothing loaded —
`SentencesModule.delete([9])` does not fail fast: the async `isValidInDb`
guard never throws (it tests a Promise's truthiness), the transaction deletes
both the sentence row and the relationship row, and only afterwards does the
call reject, from the selection-adjustment step.  The final state has the
persisted tables already mutated, contradicting the no-partial-deletes
claim. -/
theorem C2_code_bug_eval :
    isValidDBCommonEntry [{ id := 9, text := "x", journalId := 2 }] 9 1 = false
    ∧ sentencesDelete
        { activeJournal := some { id := 1 }, resourcesSelectedIds := [],
          sentencesAll := [], sentencesSelectedIds := [],
          sentencesTable := [{ id := 9, text := "x", journalId := 2 }],
          sentencesInResources := [{ sentenceId := 9, resourceId := 5 }], nextId := 10 }
        [9]
      = .err (notValidMsg 9)
        { activeJournal := some { id := 1 }, resourcesSelectedIds := [],
          sentencesAll := [], sentencesSelectedIds := [],
          sentencesTable := [], sentencesInResources := [], nextId := 10 }
    ∧ ¬ ((sentencesDelete
        { activeJournal := some { id := 1 }, resourcesSelectedIds := [],
          sentencesAll := [], sentencesSelectedIds := [],
          sentencesTable := [{ id := 9, text := "x", journalId := 2 }],
          sentencesInResources := [{ sentenceId := 9, resourceId := 5 }], nextId := 10 }
        [9]).state.sentencesTable
      = [{ id := 9, text := "x", journalId := 2 }]) := by
  exact ⟨rfl, rfl, by decide⟩

/-- Claim C8 (code bug): on the concrete input — active journal 1 and
resource 5 selected — `fetchResourceSentences` completes without error but
the resources module's selection list afterwards is empty: `shift()` removed
the parent id as a side effect of the fetch, so the selection is NOT the
same as before the call. -/
theorem C8_code_bug_eval :
    (fetchResourceSentences
        { activeJournal := some { id := 1 }, resourcesSelectedIds := [5],
          sentencesAll := [], sentencesSelectedIds := [], sentencesTable := [],
          sentencesInResources := [], nextId := 1 }).isErr = false
    ∧ (fetchResourceSentences
        { activeJournal := some { id := 1 }, resourcesSelectedIds := [5],
          sentencesAll := [], sentencesSelectedIds := [], sentencesTable := [],
          sentencesInResources := [], nextId := 1 }).state.resourcesSelectedIds = []
    ∧ ¬ ((fetchResourceSentences
        { activeJournal := some { id := 1 }, resourcesSelectedIds := [5],
          sentencesAll := [], sentencesSelectedIds := [], sentencesTable := [],
          sentencesInResources := [], nextId := 1 }).state.resourcesSelectedIds = [5]) := by
  exact ⟨rfl, rfl, by decide⟩

/-- Claim C9: when no parent Resource is selected, `fetchResourceSentences`
yields no state change for the sentences module — whether it returns early
(journal set) or throws (journal unset), the loaded mapping is not replaced
and the selection list is unchanged. -/
theorem C9_fetch_no_parent (s : AppState) (h : s.resourcesSelectedIds = []) :
    (fetchResourceSentences s).state.sentencesAll = s.sentencesAll
    ∧ (fetchResourceSentences s).state.sentencesSelectedIds = s.sentencesSelectedIds := by
  cases hj : s.activeJournal with
  | none => simp [fetchResourceSentences, hj, JsResult.state]
  | some j => simp [fetchResourceSentences, hj, h, JsResult.state]

/-- Claim C9 (witness): a concrete state with a loaded, selected sentence and
an empty resources selection — the fetch changes neither the mapping nor the
selection. -/
theorem C9_witness :
    (fetchResourceSentences
        { activeJournal := some { id := 1 }, resourcesSelectedIds := [],
          sentencesAll := [(3, { id := 3, text := "s", journalId := 1 })],
          sentencesSelectedIds := [3],
          sentencesTable := [{ id := 3, text := "s", journalId := 1 }],
          sentencesInResources := [], nextId := 4 }).state.sentencesAll
      = [(3, { id := 3, text := "s", journalId := 1 })]
    ∧ (fetchResourceSentences
        { activeJournal := some { id := 1 }, resourcesSelectedIds := [],
          sentencesAll := [(3, { id := 3, text := "s", journalId := 1 })],
          sentencesSelectedIds := [3],
          sentencesTable := [{ id := 3, text := "s", journalId := 1 }],
          sentencesInResources := [], nextId := 4 }).state.sentencesSelectedIds = [3] :=
  C9_fetch_no_parent _ rfl

/-- Every id handed out by `bulkAdd` names a row of the added batch carrying
the journal id all the batch rows were constructed with. -/
theorem bulkAddAux_mem (jid : Nat) (protos : List Sentence) :
    ∀ n : Nat, (∀ p ∈ protos, p.journalId = jid) →
    ∀ id ∈ (bulkAddAux n protos).2,
      (bulkAddAux n protos).1.any (fun row => row.id == id && row.journalId == jid) = true := by
  induction protos with
  | nil => intro n _ id hid; simp [bulkAddAux] at hid
  | cons p rest ih =>
    intro n hp id hid
    simp only [bulkAddAux, List.mem_cons] at hid
    rcases hid with hid | hid
    · subst hid
      have hpj : p.journalId = jid := hp p (List.mem_cons_self _ _)
      simp [bulkAddAux, List.any_cons, hpj]
    · have hrest := ih (n + 1) (fun q hq => hp q (List.mem_cons_of_mem _ hq)) id hid
      simp [bulkAddAux, List.any_cons, hrest]

/-- Claim C10: `SentencesModule.new` is journal-scoped — with no active
journal it raises the explicit error and creates nothing (the state is
returned untouched), and on success every returned id resolves in the
persisted table to a row whose journalId is the id of the journal that was
active at the time of the call. -/
theorem C10_new_journal_scoped (s : AppState) (texts : List String) :
    (s.activeJournal = none → sentencesNew s texts = .err newErrMsg s)
    ∧ (∀ j ids s', s.activeJournal = some j → sentencesNew s texts = .ok ids s' →
        ∀ id ∈ ids,
          s'.sentencesTable.any (fun row => row.id == id && row.journalId == j.id) = true) := by
  constructor
  · intro h; simp [sentencesNew, h]
  · intro j ids s' hj hok id hid
    simp only [sentencesNew, hj] at hok
    by_cases h0 : (j.id == 0) = true
    · simp [h0] at hok
    · rw [if_neg h0] at hok
      split at hok
      · cases hok
      · cases hok
        have hp : ∀ p ∈ texts.map
            (fun text => ({ id := 0, text := text, journalId := j.id } : Sentence)),
            p.journalId = j.id := by
          intro p hpm
          obtain ⟨t, _, hpe⟩ := List.mem_map.mp hpm
          rw [← hpe]
        have hmem := bulkAddAux_mem j.id
          (texts.map (fun text => ({ id := 0, text := text, journalId := j.id } : Sentence)))
          s.nextId hp id hid
        simp [List.any_append, hmem]

/-- Claim C10 (witness): with no active journal the call errs and the state
is unchanged; with journal 1 active, `new(["hello"])` returns id 5 and the
final table holds a row with id 5 and journalId 1. -/
theorem C10_witness :
    sentencesNew
        { activeJournal := none, resourcesSelectedIds := [], sentencesAll := [],
          sentencesSelectedIds := [], sentencesTable := [], sentencesInResources := [],
          nextId := 1 } ["hello"]
      = .err newErrMsg
        { activeJournal := none, resourcesSelectedIds := [], sentencesAll := [],
          sentencesSelectedIds := [], sentencesTable := [], sentencesInResources := [],
          nextId := 1 }
    ∧ (AppState.mk (some { id := 1 }) [] [] []
        [{ id := 5, text := "hello", journalId := 1 }] [] 6).sentencesTable.any
        (fun row => row.id == 5 && row.journalId == 1) = true :=
  ⟨(C10_new_journal_scoped _ ["hello"]).1 rfl,
   (C10_new_journal_scoped
      { activeJournal := some { id := 1 }, resourcesSelectedIds := [], sentencesAll := [],
        sentencesSelectedIds := [], sentencesTable := [], sentencesInResources := [],
        nextId := 5 } ["hello"]).2 { id := 1 } [5]
      (AppState.mk (some { id := 1 }) [] [] []
        [{ id := 5, text := "hello", journalId := 1 }] [] 6) rfl rfl 5 (by decide)⟩

end WordPouch
